import Mathlib

/-!
# Verification of the shp-vid-aff-be asynchronous job subsystem
and video composition pipeline

Shallow embedding of the queue worker (`src/jobs/video-generation.job.ts`,
`src/jobs/queue.ts`), the video composition pipeline
(`src/services/video-generator.service.ts`) and the enqueue routes
(`src/routes/ai.ts`, `src/routes/videos.ts`), together with theorems
settling the specification claims about them.
-/

namespace ShpVid

/-! ## Job records (`src/models/job.model.ts`) -/

/-- Job status enum from `job.model.ts`: `'waiting' | 'active' | 'completed' | 'failed'`. -/
inductive JobStatus
  | waiting
  | active
  | completed
  | failed
deriving DecidableEq, Repr

/-- The fields of a Job record that the worker mutates
(`status`, `attempts`, `progress`, `error`). -/
structure JobRecord where
  status : JobStatus
  attempts : Nat
  progress : Nat
  error : Option String
deriving DecidableEq, Repr

/-- The conditional updates applied to a Job record by the video worker
(`video-generation.job.ts`), each a `Job.findOneAndUpdate` with the filter
shown in the comments:

* `dispatch` — lines 31-37: filter `status ≠ completed`, sets
  `status := active`, increments `attempts`;
* `setProgress p` — lines 41-44: filter `status = active`, sets `progress`;
* `complete` — lines 69-84: filter `status = active`, sets `status := completed`,
  `progress := 100`;
* `handlerFail m` — lines 102-111 (the handler's own catch): no status filter,
  sets `status := failed` and the error message;
* `terminalFail m` — lines 198-207 (the worker's max-retry branch): no status
  filter, sets `status := failed` and the error message. -/
inductive JobUpdate
  | dispatch
  | setProgress (p : Nat)
  | complete
  | handlerFail (msg : String)
  | terminalFail (msg : String)
deriving DecidableEq, Repr

/-- Apply one worker update to the Job record for the matching
(product, type) pair; a filter that does not match leaves the record as is. -/
def applyUpdate : JobUpdate → JobRecord → JobRecord
  | .dispatch, j =>
      if j.status = .completed then j
      else { j with status := .active, attempts := j.attempts + 1 }
  | .setProgress p, j =>
      if j.status = .active then { j with progress := p } else j
  | .complete, j =>
      if j.status = .active then { j with status := .completed, progress := 100 } else j
  | .handlerFail m, j => { j with status := .failed, error := some m }
  | .terminalFail m, j => { j with status := .failed, error := some m }

/-! ## Broker actions and the consume callback
(`startVideoWorker`, `video-generation.job.ts` lines 133-262) -/

/-- Channel operations the consume callback performs, in order. -/
inductive BrokerAction
  | publish (queue : String) (body : String) (retryHeader : Nat)
  | ack
  | nack (requeue : Bool)
deriving DecidableEq, Repr

/-- Outcome of one execution of `processVideoGenerationJob` on a delivery.
A failure records whether `Product.findOne({ productId })` succeeds in the
catch blocks (it governs whether the Job record is updated at all). -/
inductive HandlerResult
  | success
  | failure (productFound : Bool) (msg : String)
deriving DecidableEq, Repr

/-- Everything one invocation of the consume callback does: the retry count it
read from `x-retry-count` (`|| 0` when absent), the broker actions it issued in
order, the Job record updates it applied in order, and how many times it ran
the handler. -/
structure StepResult where
  readRetry : Nat
  actions : List BrokerAction
  jobUpdates : List JobUpdate
  handlerRuns : Nat
deriving DecidableEq, Repr

/-- `QUEUE_NAMES.VIDEO` from `src/config/rabbitmq.ts`. -/
def QUEUE_VIDEO : String := "vid-processor-mq-video"

/-- `const maxRetries = 3` in the worker's catch block (line 185). -/
def maxRetries : Nat := 3

/-- Job record updates performed by one run of `processVideoGenerationJob`.
On success: the dispatch update, then the completion update (the intermediate
`setProgress` checkpoints touch only `progress`, never `status`).
On failure after the product lookup succeeded: the dispatch update, then the
catch block's `status := failed` write (lines 102-111). On a product-not-found
failure the function throws at line 23 before the dispatch update, and the
catch block's own `Product.findOne` also returns null, so no Job update runs. -/
def handlerUpdates : HandlerResult → List JobUpdate
  | .success => [.dispatch, .complete]
  | .failure true m => [.dispatch, .handlerFail m]
  | .failure false _ => []

/-- One invocation of the consume callback (`video-generation.job.ts`
lines 155-253) on a delivered message.

* `parseOk` — whether `JSON.parse(msg.content.toString())` succeeds;
* `body` — the raw message content;
* `hdr` — the `x-retry-count` header, absent on a first delivery;
* `handler` — the (deterministic) outcome of `processVideoGenerationJob`;
* `publishOk` — whether `channel.sendToQueue` succeeds in the retry branch.

The branches follow the source: parse failure → `nack(msg, false, false)`
and return (lines 163-171); handler success → `ack` (line 181); handler
failure with `retryCount >= maxRetries` → terminal failure write (when the
product is found) and `nack(msg, false, false)` (lines 189-222); otherwise
republish the same body to the same queue with `x-retry-count: retryCount+1`
and then `ack` the original (lines 227-246), falling back to
`nack(msg, false, false)` if the republish throws (lines 247-251). -/
def consumeStep (parseOk : Bool) (body : String) (hdr : Option Nat)
    (handler : HandlerResult) (publishOk : Bool) : StepResult :=
  if parseOk = false then
    { readRetry := 0, actions := [.nack false], jobUpdates := [], handlerRuns := 0 }
  else
    let retryCount := hdr.getD 0
    match handler with
    | .success =>
        { readRetry := retryCount, actions := [.ack],
          jobUpdates := handlerUpdates .success, handlerRuns := 1 }
    | .failure productFound msg =>
        if maxRetries ≤ retryCount then
          { readRetry := retryCount,
            actions := [.nack false],
            jobUpdates := handlerUpdates (.failure productFound msg) ++
              (if productFound then [JobUpdate.terminalFail msg] else []),
            handlerRuns := 1 }
        else if publishOk then
          { readRetry := retryCount,
            actions := [.publish QUEUE_VIDEO body (retryCount + 1), .ack],
            jobUpdates := handlerUpdates (.failure productFound msg),
            handlerRuns := 1 }
        else
          { readRetry := retryCount, actions := [.nack false],
            jobUpdates := handlerUpdates (.failure productFound msg),
            handlerRuns := 1 }

/-- The retry header of the copy a step republished, if any. -/
def republishedRetry (s : StepResult) : Option Nat :=
  (s.actions.filterMap fun a =>
    match a with
    | .publish _ _ r => some r
    | _ => none).head?

/-- Run the worker on a message whose handler fails deterministically with the
same outcome on every delivery: each republished copy is delivered next, with
the header the republish gave it, until a step republishes nothing. `fuel`
bounds the recursion; with the bound `maxRetries` it is never exhausted. -/
def runFailing (productFound : Bool) (msg body : String) :
    Nat → Option Nat → List StepResult
  | 0, _ => []
  | fuel + 1, hdr =>
      let s := consumeStep true body hdr (.failure productFound msg) true
      match republishedRetry s with
      | some r => s :: runFailing productFound msg body fuel (some r)
      | none => [s]

/-- The full delivery trace of a deterministically failing message, starting
from the producer's original message, which carries no `x-retry-count` header
(`publishToQueue` in `queue.ts` sets only `persistent` and `priority`). -/
def failTrace (productFound : Bool) (msg body : String) : List StepResult :=
  runFailing productFound msg body 10 none

/-- Whether a Job update writes `status := failed`. -/
def failedWrite : JobUpdate → Bool
  | .handlerFail _ => true
  | .terminalFail _ => true
  | _ => false

/-! ## Scene derivation
(`VideoGeneratorService.prepareScenes`, `video-generator.service.ts`
lines 247-306) -/

/-- `VideoScene` from `video-generator.service.ts`; `duration` is the
template's per-scene display time in seconds. -/
structure VideoScene where
  image : String
  text : String
  duration : ℚ
  transition : String
deriving DecidableEq, Repr

/-- `prepareScenes`: candidate images are the scraped `product.images`
followed by `product.fallbackImages.images`; with no candidate it throws
`'Product has no images. Cannot generate video.'`; otherwise
`minScenes = Math.ceil(10 / displayTime)`,
`targetScenes = Math.max(minScenes, textSlides.length)`, and scene `i`
(for `i < targetScenes`) uses image `images[i % images.length]`, text
`textSlides[i]` when `i < textSlides.length` and `''` otherwise, the
template's display time as duration and its transition. -/
def prepareScenes (scrapedImages fallbackImages textSlides : List String)
    (displayTime : ℚ) (transition : String) : Except String (List VideoScene) :=
  let images := scrapedImages ++ fallbackImages
  if images.length = 0 then
    .error "Product has no images. Cannot generate video."
  else
    let minDuration : ℚ := 10
    let minScenes : Nat := (⌈minDuration / displayTime⌉ : ℤ).toNat
    let targetScenes : Nat := max minScenes textSlides.length
    .ok ((List.range targetScenes).map fun i =>
      { image := images.getD (i % images.length) ""
        text := if i < textSlides.length then textSlides.getD i "" else ""
        duration := displayTime
        transition := transition })

/-! ## Composition run filesystem effects
(`generateVideo` / `processScenes` / `createVideoFromScenes`,
`video-generator.service.ts`) -/

/-- The files a composition run creates: the per-scene processed frames
(`scene-<i>-<nanoid>.png` in the temp directory), the ffmpeg input list
(`input-<videoId>.txt`), the narration audio (`<videoId>_narration.mp3`),
the encoded output (`<videoId>.mp4`) and the thumbnail (`<videoId>.jpg`). -/
inductive FileId
  | frame (i : Nat)
  | inputList
  | narrationFile
  | videoFile
  | thumbFile
deriving DecidableEq, Repr

/-- Files the spec calls intermediate/temporary: scene frames, the ffmpeg
input list and the narration audio. -/
def tempFile : FileId → Bool
  | .frame _ => true
  | .inputList => true
  | .narrationFile => true
  | _ => false

/-- The `processScenes` loop (lines 369-420) over the scene indices:
scene `i` either writes its processed frame file and continues, or throws
`'Failed to process scene <i>: ...'`, leaving the frames already written on
disk. Returns the loop's result together with the list of files written. -/
def processScenesRun (sceneOk : Nat → Bool) :
    List Nat → List FileId → Except String (List FileId) × List FileId
  | [], acc => (.ok acc, acc)
  | i :: rest, acc =>
      if sceneOk i then processScenesRun sceneOk rest (acc ++ [FileId.frame i])
      else (.error ("Failed to process scene " ++ toString i ++ ": image error"), acc)

/-- `createVideoFromScenes` (lines 447-608), tracking the filesystem:
with no scene paths it throws before writing anything (line 470); otherwise it
writes the ffmpeg input list (line 480) and runs ffmpeg. Only the `'end'`
handler (lines 569-596) deletes the scene frames, the input list and the
narration file; the `'error'` handler (lines 597-605) rejects without any
cleanup. On success ffmpeg has written the output video. -/
def createVideoRun (scenePaths : List FileId) (hasNarration : Bool)
    (encodeOk : Bool) (fs : List FileId) : Except String FileId × List FileId :=
  if scenePaths.length = 0 then
    (.error "No processed scenes available. Cannot create video.", fs)
  else
    let fs1 := fs ++ [FileId.inputList]
    if encodeOk then
      let fs2 := fs1 ++ [FileId.videoFile]
      let cleaned := fs2.filter fun f =>
        !(scenePaths.contains f) && !(f == FileId.inputList) &&
          !(hasNarration && f == FileId.narrationFile)
      (.ok FileId.videoFile, cleaned)
    else
      (.error "ffmpeg exited with an error", fs1)

/-- The product fields `generateVideo` reads: scraped `images`,
`fallbackImages.images`, and whether `aiContent` is set. -/
structure ProductR where
  images : List String
  fallbackImages : List String
  hasAiContent : Bool
deriving DecidableEq, Repr

/-- One composition run (`generateVideo`, lines 47-242), tracking its
filesystem effects: validate AI content, derive scenes (`prepareScenes`),
process them (`processScenes`), optionally write the narration audio, encode
(`createVideoFromScenes`), then extract the thumbnail. Any error aborts the
run at that point with the files written so far still on disk. Returns the
run's result and the list of files existing afterwards (local-storage path,
Google Drive disabled). -/
def generateVideoRun (p : ProductR) (textSlides : List String) (d : ℚ)
    (tr : String) (hasNarr : Bool) (sceneOk : Nat → Bool)
    (encodeOk thumbOk : Bool) : Except String FileId × List FileId :=
  if p.hasAiContent = false then
    (.error "Product does not have AI content generated", [])
  else
    match prepareScenes p.images p.fallbackImages textSlides d tr with
    | .error e => (.error e, [])
    | .ok scenes =>
        match processScenesRun sceneOk (List.range scenes.length) [] with
        | (.error e, written) => (.error e, written)
        | (.ok paths, written) =>
            let fs0 := written ++ (if hasNarr then [FileId.narrationFile] else [])
            match createVideoRun paths hasNarr encodeOk fs0 with
            | (.error e, fs1) => (.error e, fs1)
            | (.ok v, fs1) =>
                if thumbOk then (.ok v, fs1 ++ [FileId.thumbFile])
                else (.error "thumbnail error", fs1)

/-! ## Audio assembly of the encode step
(`createVideoFromScenes`, `video-generator.service.ts` lines 508-557)

The audio branches mutate the fluent-ffmpeg `command` object. The
narration-only branch mutates it synchronously. The two music branches place
all their mutations inside a `Music.findById(musicId).then(...)` callback that
is never awaited; `command.output(outputPath)...run()` executes synchronously
at the end of the enclosing promise executor, so ffmpeg is spawned strictly
before any such callback runs, with only the synchronously applied state. The
embedding therefore separates the command state at `run()` from the deferred
callback mutations. -/

/-- The audio-relevant state of the fluent-ffmpeg command: audio input files,
complex filter entries, and audio/mapping output options. -/
structure FfmpegCommand where
  audioInputs : List String
  complexFilters : List String
  audioOutputOptions : List String
deriving DecidableEq, Repr

/-- The command before any audio branch: video input list only. -/
def baseCommand : FfmpegCommand :=
  { audioInputs := [], complexFilters := [], audioOutputOptions := [] }

/-- The mutation of the music-and-narration branch (lines 514-534): add both
audio inputs, the 30%-music / 100%-narration `amix` filter graph, and the
mapping/codec options. -/
def mixMutation (musicPath narrPath : String) (c : FfmpegCommand) : FfmpegCommand :=
  { c with
    audioInputs := c.audioInputs ++ [musicPath, narrPath]
    complexFilters := c.complexFilters ++
      ["[1:a]volume=0.3[music]", "[2:a]volume=1.0[narration]",
       "[music][narration]amix=inputs=2:duration=first[aout]"]
    audioOutputOptions := c.audioOutputOptions ++
      ["-map 0:v", "-map [aout]", "-c:v libx264", "-c:a aac", "-b:a 128k",
       "-shortest"] }

/-- The mutation of the music-only branch (lines 537-547). -/
def musicOnlyMutation (musicPath : String) (c : FfmpegCommand) : FfmpegCommand :=
  { c with
    audioInputs := c.audioInputs ++ [musicPath]
    audioOutputOptions := c.audioOutputOptions ++ ["-c:a aac", "-b:a 128k", "-shortest"] }

/-- The mutation of the narration-only branch (lines 548-557). -/
def narrationMutation (narrPath : String) (c : FfmpegCommand) : FfmpegCommand :=
  { c with
    audioInputs := c.audioInputs ++ [narrPath]
    audioOutputOptions := c.audioOutputOptions ++ ["-c:a aac", "-b:a 128k", "-shortest"] }

/-- The command assembly, split into the state present when `run()` is invoked
and the mutations deferred into unawaited promise callbacks. -/
structure CommandBuild where
  atRun : FfmpegCommand
  deferred : List (FfmpegCommand → FfmpegCommand)

/-- Audio assembly following the source branches: `hasMusic = !!musicId`,
`hasNarration` = narration path present and the file exists, `musicFound` =
the deferred `Music.findById` resolves to a record whose file exists. The two
music branches contribute only deferred mutations; the narration-only branch
mutates synchronously; with neither, no audio is attached at all. -/
def buildAudio (hasMusic hasNarration musicFound : Bool)
    (musicPath narrPath : String) : CommandBuild :=
  if hasMusic && hasNarration then
    { atRun := baseCommand
      deferred := [fun c => if musicFound then mixMutation musicPath narrPath c else c] }
  else if hasMusic then
    { atRun := baseCommand
      deferred := [fun c => if musicFound then musicOnlyMutation musicPath c else c] }
  else if hasNarration then
    { atRun := narrationMutation narrPath baseCommand, deferred := [] }
  else
    { atRun := baseCommand, deferred := [] }

/-! ## Queue statistics (`getQueueStats`, `src/jobs/queue.ts` lines 173-201) -/

/-- The object `getQueueStats` returns. -/
structure QueueStatsResult where
  available : Bool
  waiting : Nat
  active : Nat
  completed : Nat
  failed : Nat
  total : Nat
deriving DecidableEq, Repr

/-- `getQueueStats`: the four `Job.countDocuments` queries either all resolve
(`counts = .ok (w, a, c, f)`) — then the stats carry those counts,
`available := rabbitmqAvailable` and `total := w + a + c + f` — or any of
them rejects — then the catch block returns all counts `0` with
`available := false`. The surrounding try/catch means the function always
returns and never throws. -/
def getQueueStats (counts : Except Unit (Nat × Nat × Nat × Nat))
    (rabbitmqAvailable : Bool) : QueueStatsResult :=
  match counts with
  | .ok (w, a, c, f) =>
      { available := rabbitmqAvailable, waiting := w, active := a,
        completed := c, failed := f, total := w + a + c + f }
  | .error _ =>
      { available := false, waiting := 0, active := 0, completed := 0,
        failed := 0, total := 0 }

/-! ## Enqueue routes (`src/routes/ai.ts` POST /generate-content,
`src/routes/videos.ts` POST /generate) -/

/-- A stored Job record as the routes see it: id, product reference, the
`type` string the route wrote, and status. -/
structure StoredJob where
  id : String
  productRef : String
  jobType : String
  status : JobStatus
deriving DecidableEq, Repr

/-- The duplicate lookup of `ai.ts` (lines 129-134):
`Job.findOne({ productId, type, status: { $in: ['waiting', 'active'] } })`. -/
def findNonTerminal (jobs : List StoredJob) (pid ty : String) : Option StoredJob :=
  jobs.find? fun j =>
    j.productRef == pid && j.jobType == ty &&
      (j.status == JobStatus.waiting || j.status == JobStatus.active)

/-- What one enqueue request did: the records it created, how many messages it
published, and the existing-job id it carried when it rejected a duplicate. -/
structure EnqueueOutcome where
  createdRecords : List StoredJob
  publishedMessages : Nat
  rejectedWithExistingId : Option String
deriving DecidableEq, Repr

/-- The `type` enum of the Job schema (`job.model.ts` line 35):
`['ai_content', 'scrape_product', 'generate_video']`. -/
def jobTypeEnum : List String := ["ai_content", "scrape_product", "generate_video"]

/-- Persisting a Job record (`Job.create` / `job.save()`): Mongoose runs the
schema validators on save, so a record whose `type` is outside the schema
enum is rejected with a ValidationError and nothing is stored. -/
def saveJobRecord (j : StoredJob) : Except String StoredJob :=
  if jobTypeEnum.contains j.jobType then .ok j
  else .error "Job validation failed: type is not a valid enum value"

/-- The per-product body of `ai.ts` POST /generate-content (lines 111-180),
queue available: product missing → error, nothing created or published;
an existing `ai_content` job with status waiting/active → push an error
carrying `existingJobId` and `continue`, nothing created or published;
otherwise persist the Job record (status waiting; `type: 'ai_content'`
passes schema validation) and publish one message. -/
def aiGenerateContentEnqueue (jobs : List StoredJob) (pid : String)
    (productExists : Bool) (newId : String) : EnqueueOutcome :=
  if productExists = false then
    { createdRecords := [], publishedMessages := 0, rejectedWithExistingId := none }
  else
    match findNonTerminal jobs pid "ai_content" with
    | some existing =>
        { createdRecords := [], publishedMessages := 0,
          rejectedWithExistingId := some existing.id }
    | none =>
        match saveJobRecord ⟨newId, pid, "ai_content", JobStatus.waiting⟩ with
        | .error _ =>
            { createdRecords := [], publishedMessages := 0,
              rejectedWithExistingId := none }
        | .ok j =>
            { createdRecords := [j], publishedMessages := 1,
              rejectedWithExistingId := none }

/-- `videos.ts` POST /generate (lines 509-541): it performs no duplicate
lookup at all — it builds a Job record with type `'video_generation'` and
awaits `job.save()` before calling `addVideoJob`. That type string is not in
the Job schema enum, so the save rejects, the route's catch returns an error
response (carrying no existing-job id), and `addVideoJob` is never reached:
nothing is stored and nothing is published. -/
def videoGenerateEnqueue (jobs : List StoredJob) (pid newId : String) :
    EnqueueOutcome :=
  let _ := jobs
  match saveJobRecord ⟨newId, pid, "video_generation", JobStatus.waiting⟩ with
  | .error _ =>
      { createdRecords := [], publishedMessages := 0,
        rejectedWithExistingId := none }
  | .ok j =>
      { createdRecords := [j], publishedMessages := 1,
        rejectedWithExistingId := none }

/-! ## The claims as stated, as predicates over the embedding -/

/-- Claim C1 as stated: over the delivery trace of a deterministically
failing message — each republish carries the read retry count plus exactly
one, the handler runs once per delivery, and a `status := failed` write occurs
on a delivery exactly when the retry count it read equals `maxRetries`. -/
def claimC1Pred (trace : List StepResult) : Prop :=
  (∀ s ∈ trace, s.handlerRuns = 1) ∧
  (∀ s ∈ trace,
    republishedRetry s = some (s.readRetry + 1) ∨ republishedRetry s = none) ∧
  (∀ s ∈ trace, (s.jobUpdates.any failedWrite = true ↔ s.readRetry = maxRetries))

/-- Claim C4 as stated: from a completed or failed record, no worker update
ever yields status waiting or active again. -/
def claimC4Pred : Prop :=
  ∀ (j : JobRecord) (u : JobUpdate),
    (j.status = .completed ∨ j.status = .failed) →
    (applyUpdate u j).status ≠ .active ∧ (applyUpdate u j).status ≠ .waiting

/-- Claim C8 as stated, on the command ffmpeg is actually spawned with: both
music and narration present (and the music record resolvable) → both audio
inputs and the 30%/100% `amix` filter graph; music only → the music input
attached; narration only → the narration input attached. -/
def claimC8Pred : Prop :=
  ∀ (mp np : String),
    ((buildAudio true true true mp np).atRun.audioInputs = [mp, np] ∧
      (buildAudio true true true mp np).atRun.complexFilters =
        ["[1:a]volume=0.3[music]", "[2:a]volume=1.0[narration]",
         "[music][narration]amix=inputs=2:duration=first[aout]"]) ∧
    (buildAudio true false true mp np).atRun.audioInputs = [mp] ∧
    (buildAudio false true true mp np).atRun.audioInputs = [np]

/-- Claim C9 as stated: after every composition run, successful or not, no
intermediate file (scene frame, ffmpeg input list, narration audio) remains. -/
def claimC9Pred : Prop :=
  ∀ (p : ProductR) (ts : List String) (d : ℚ) (tr : String) (hn : Bool)
    (so : Nat → Bool) (eo tk : Bool),
    ∀ f ∈ (generateVideoRun p ts d tr hn so eo tk).2, tempFile f = false

/-- Claim C3 as stated: both enqueue routes, when a non-terminal job for the
same (subject, type) exists, reject carrying the existing job's id, create no
record and publish nothing. -/
def claimC3Pred : Prop :=
  ∀ (jobs : List StoredJob) (pid newId : String),
    (∀ e, findNonTerminal jobs pid "ai_content" = some e →
      aiGenerateContentEnqueue jobs pid true newId =
        { createdRecords := [], publishedMessages := 0,
          rejectedWithExistingId := some e.id }) ∧
    (∀ e, findNonTerminal jobs pid "video_generation" = some e →
      videoGenerateEnqueue jobs pid newId =
        { createdRecords := [], publishedMessages := 0,
          rejectedWithExistingId := some e.id })

/-! # Theorems settling the claims -/

/-- Claim C1 (counterexample). The claim says `status := failed` is written
only on the attempt whose read `x-retry-count` has reached `maxAttempts`. On
the trace of a deterministically failing message whose product lookup
succeeds, the handler's own catch block writes `status := failed` on every
one of the four attempts — read retry counts 0, 1, 2, 3 — so the claim as
stated is false. -/
theorem failed_write_before_max_retries :
    ((failTrace true "err" "body").map fun s => s.jobUpdates.any failedWrite) =
      [true, true, true, true] ∧
    ((failTrace true "err" "body").map fun s => s.readRetry) = [0, 1, 2, 3] ∧
    ¬ claimC1Pred (failTrace true "err" "body") := by
  refine ⟨rfl, rfl, fun h => ?_⟩
  have h3 := h.2.2
    { readRetry := 0,
      actions := [.publish QUEUE_VIDEO "body" 1, .ack],
      jobUpdates := [.dispatch, .handlerFail "err"], handlerRuns := 1 }
    (by decide)
  exact absurd (h3.mp (by decide)) (by decide)

/-- Claim C1 (amended). A deterministically failing video message is
delivered `maxRetries + 1 = 4` times, reading retry counts 0, 1, 2, 3; the
handler runs exactly once per delivery; each of the first three deliveries
republishes the same body to the same queue with `x-retry-count` equal to the
read count plus exactly 1 and the last republishes nothing; the terminal
delivery (read count = `maxRetries`) rejects without requeue; and the Job
record's `status := failed` writes are: on every failing attempt via the
handler's catch block when the product lookup succeeds (with the additional
terminal-failure write on the last attempt), and never at all when the
product lookup fails. -/
theorem retry_trace_characterization (pf : Bool) (msg body : String) :
    (failTrace pf msg body).length = maxRetries + 1 ∧
    ((failTrace pf msg body).map fun s => s.readRetry) = [0, 1, 2, 3] ∧
    ((failTrace pf msg body).map fun s => s.handlerRuns) = [1, 1, 1, 1] ∧
    (failTrace pf msg body).map republishedRetry = [some 1, some 2, some 3, none] ∧
    ((failTrace pf msg body).map fun s => s.actions) =
      [[.publish QUEUE_VIDEO body 1, .ack],
       [.publish QUEUE_VIDEO body 2, .ack],
       [.publish QUEUE_VIDEO body 3, .ack],
       [.nack false]] ∧
    ((failTrace pf msg body).map fun s => s.jobUpdates) =
      (if pf then
        [[.dispatch, .handlerFail msg], [.dispatch, .handlerFail msg],
         [.dispatch, .handlerFail msg],
         [.dispatch, .handlerFail msg, .terminalFail msg]]
       else [[], [], [], []]) := by
  cases pf <;> exact ⟨rfl, rfl, rfl, rfl, rfl, rfl⟩

/-- Claim C4 (counterexample). Failed is not terminal: the worker's dispatch
update (`Job.findOneAndUpdate` with filter `status ≠ completed`,
`video-generation.job.ts` lines 31-37) sets a failed Job record back to
active on a redelivery, refuting the claim that no operation ever sets a
completed-or-failed record back to waiting or active. -/
theorem dispatch_reactivates_failed :
    (applyUpdate .dispatch
      { status := .failed, attempts := 1, progress := 0, error := some "e" }).status =
      .active ∧
    ¬ claimC4Pred := by
  refine ⟨rfl, fun h => ?_⟩
  have := h { status := .failed, attempts := 1, progress := 0, error := some "e" }
    .dispatch (Or.inr rfl)
  exact this.1 rfl

/-- Claim C4 (amended). Completed is terminal: no worker update moves a
completed record to waiting or active. Failed is terminal under every worker
update except dispatch: the dispatch update of a redelivered message sets a
failed record back to active (by design, since the retry path re-runs the
handler after its catch block already wrote failed). -/
theorem completed_terminal_characterization :
    (∀ (j : JobRecord) (u : JobUpdate), j.status = .completed →
      (applyUpdate u j).status ≠ .active ∧ (applyUpdate u j).status ≠ .waiting) ∧
    (∀ (j : JobRecord) (u : JobUpdate), j.status = .failed → u ≠ .dispatch →
      (applyUpdate u j).status ≠ .active ∧ (applyUpdate u j).status ≠ .waiting) ∧
    (∀ j : JobRecord, j.status = .failed → (applyUpdate .dispatch j).status = .active) := by
  refine ⟨?_, ?_, ?_⟩
  · intro j u h
    cases u <;> simp [applyUpdate, h]
  · intro j u h hu
    cases u with
    | dispatch => exact absurd rfl hu
    | setProgress p => simp [applyUpdate, h]
    | complete => simp [applyUpdate, h]
    | handlerFail m => simp [applyUpdate]
    | terminalFail m => simp [applyUpdate]
  · intro j h
    simp [applyUpdate, h]

/-- Witness for `completed_terminal_characterization` at concrete records. -/
theorem completed_terminal_characterization_witness :
    (applyUpdate .dispatch
      { status := .completed, attempts := 0, progress := 0, error := none }).status ≠
      .active ∧
    (applyUpdate .complete
      { status := .failed, attempts := 0, progress := 0, error := none }).status ≠
      .active ∧
    (applyUpdate .dispatch
      { status := .failed, attempts := 0, progress := 0, error := none }).status =
      .active :=
  ⟨(completed_terminal_characterization.1 _ .dispatch rfl).1,
   (completed_terminal_characterization.2.1 _ .complete rfl (by decide)).1,
   completed_terminal_characterization.2.2 _ rfl⟩

/-- Claim C5 (confirmed). On a handler failure whose read retry count is
below `maxRetries`, the worker issues exactly: a publish of the same body to
the same queue with `x-retry-count` incremented, followed by the ack of the
original — the publish strictly precedes the ack — and no failure branch of
the worker ever issues a broker-native requeue (`nack` with requeue true). -/
theorem republish_before_ack (body msg : String) (hdr : Option Nat) (pf : Bool)
    (h : hdr.getD 0 < maxRetries) :
    (consumeStep true body hdr (.failure pf msg) true).actions =
      [.publish QUEUE_VIDEO body (hdr.getD 0 + 1), .ack] ∧
    ∀ pubOk : Bool,
      BrokerAction.nack true ∉ (consumeStep true body hdr (.failure pf msg) pubOk).actions := by
  constructor
  · simp [consumeStep, Nat.not_le.mpr h]
  · intro pubOk
    cases pubOk <;> simp [consumeStep, Nat.not_le.mpr h]

/-- Witness for `republish_before_ack` on a first delivery (no header). -/
theorem republish_before_ack_witness :
    ((none : Option Nat).getD 0 < maxRetries) ∧
    ((consumeStep true "body" none (.failure true "err") true).actions =
      [.publish QUEUE_VIDEO "body" ((none : Option Nat).getD 0 + 1), .ack] ∧
     ∀ pubOk : Bool,
       BrokerAction.nack true ∉ (consumeStep true "body" none (.failure true "err") pubOk).actions) :=
  ⟨by decide, republish_before_ack "body" "err" none true (by decide)⟩

/-- Claim C6 (confirmed). A message whose body fails to parse is rejected
with a single `nack` without requeue, the handler never runs, no Job update
is applied, and no retry copy is published. -/
theorem malformed_message_discarded (body : String) (hdr : Option Nat)
    (handler : HandlerResult) (pubOk : Bool) :
    (consumeStep false body hdr handler pubOk).actions = [.nack false] ∧
    (consumeStep false body hdr handler pubOk).handlerRuns = 0 ∧
    (consumeStep false body hdr handler pubOk).jobUpdates = [] ∧
    ∀ q b r, BrokerAction.publish q b r ∉ (consumeStep false body hdr handler pubOk).actions := by
  refine ⟨rfl, rfl, rfl, ?_⟩
  intro q b r
  simp [consumeStep]

/-- Claim C2 (confirmed). With per-scene display time `d > 0` and a non-empty
candidate list, `prepareScenes` returns exactly
`max ⌈10 / d⌉ (len textSlides)` scenes, scene `i` using image
`candidates[i % len candidates]`, overlay text `textSlides[i]` when
`i < len textSlides` and empty text otherwise, and duration `d`. -/
theorem prepareScenes_characterization (scraped fb ts : List String) (d : ℚ)
    (tr : String) (_hd : 0 < d) (hne : scraped ++ fb ≠ []) :
    ∃ scenes, prepareScenes scraped fb ts d tr = .ok scenes ∧
      scenes.length = max (⌈(10:ℚ)/d⌉ : ℤ).toNat ts.length ∧
      ∀ i, i < scenes.length →
        scenes[i]? = some
          { image := (scraped ++ fb).getD (i % (scraped ++ fb).length) ""
            text := if i < ts.length then ts.getD i "" else ""
            duration := d
            transition := tr } := by
  have hlen : ¬((scraped ++ fb).length = 0) := by
    simpa [List.length_eq_zero] using hne
  refine ⟨(List.range (max (⌈(10:ℚ)/d⌉ : ℤ).toNat ts.length)).map fun i =>
      { image := (scraped ++ fb).getD (i % (scraped ++ fb).length) ""
        text := if i < ts.length then ts.getD i "" else ""
        duration := d
        transition := tr }, ?_, ?_, ?_⟩
  · simp [prepareScenes, hlen]
    intro h1
    simpa [h1] using hne
  · simp
  · intro i hi
    simp only [List.length_map, List.length_range] at hi
    simp [List.getElem?_map, List.getElem?_range hi]

/-- Witness for `prepareScenes_characterization`: the spec's own example —
one image, no key points, display time 5s — yields exactly 2 scenes, both
with the same image and empty text. -/
theorem prepareScenes_characterization_witness :
    ((0:ℚ) < 5) ∧ (["img"] ++ ([] : List String) ≠ []) ∧
    ∃ scenes, prepareScenes ["img"] [] [] 5 "t" = .ok scenes ∧
      scenes.length = max (⌈(10:ℚ)/5⌉ : ℤ).toNat ([] : List String).length ∧
      ∀ i, i < scenes.length →
        scenes[i]? = some
          { image := (["img"] ++ ([] : List String)).getD
              (i % (["img"] ++ ([] : List String)).length) ""
            text := if i < ([] : List String).length
              then ([] : List String).getD i "" else ""
            duration := (5:ℚ)
            transition := "t" } :=
  ⟨by norm_num, by decide,
   prepareScenes_characterization ["img"] [] [] 5 "t" (by norm_num) (by decide)⟩

/-- Claim C10 (confirmed). `getQueueStats` is total: when the four count
queries resolve it returns those counts with `total` equal to
waiting + active + completed + failed, and when any of them rejects it
returns all five counts 0 with `available = false`. -/
theorem getQueueStats_characterization (avail : Bool) :
    (∀ w a c f : Nat, getQueueStats (.ok (w, a, c, f)) avail =
      { available := avail, waiting := w, active := a, completed := c,
        failed := f, total := w + a + c + f }) ∧
    (∀ w a c f : Nat, (getQueueStats (.ok (w, a, c, f)) avail).total =
      (getQueueStats (.ok (w, a, c, f)) avail).waiting +
      (getQueueStats (.ok (w, a, c, f)) avail).active +
      (getQueueStats (.ok (w, a, c, f)) avail).completed +
      (getQueueStats (.ok (w, a, c, f)) avail).failed) ∧
    getQueueStats (.error ()) avail =
      { available := false, waiting := 0, active := 0, completed := 0,
        failed := 0, total := 0 } :=
  ⟨fun _ _ _ _ => rfl, fun _ _ _ _ => rfl, rfl⟩

/-- Claim C8 (counterexample). With both background music and narration
present (and the music record resolvable), the command ffmpeg is actually
spawned with carries no audio input and no mix filter at all: the music
branch's mutations live inside an unawaited `Music.findById(...).then`
callback that runs only after `run()` has already been invoked. The claim
that the output carries a mixed narration/music track is therefore false. -/
theorem music_branch_inert :
    (buildAudio true true true "music.mp3" "narr.mp3").atRun = baseCommand ∧
    ¬ claimC8Pred := by
  refine ⟨rfl, fun h => ?_⟩
  have h1 := (h "music.mp3" "narr.mp3").1.1
  rw [show (buildAudio true true true "music.mp3" "narr.mp3").atRun = baseCommand
    from rfl] at h1
  simp [baseCommand] at h1

/-- Claim C8 (amended). At the moment `run()` is invoked, the executed
command has: no audio at all whenever background music is requested (both
music branches defer every mutation into the unawaited lookup callback), the
narration attached directly with aac encoding when narration alone is
present, and no audio track — not a silent one — when neither is present.
The deferred callbacks would have attached the mix (narration at 100%, music
at 30%) and the lone music track respectively, but run strictly after the
command has been launched. -/
theorem audio_assembly_at_run (mp np : String) :
    (buildAudio true true true mp np).atRun = baseCommand ∧
    (buildAudio true false true mp np).atRun = baseCommand ∧
    (buildAudio false true true mp np).atRun = narrationMutation np baseCommand ∧
    (buildAudio false false true mp np).atRun = baseCommand ∧
    (buildAudio true true true mp np).deferred.foldl (fun c m => m c) baseCommand =
      mixMutation mp np baseCommand ∧
    (buildAudio true false true mp np).deferred.foldl (fun c m => m c) baseCommand =
      musicOnlyMutation mp baseCommand :=
  ⟨rfl, rfl, rfl, rfl, rfl, rfl⟩

/-- Claim C3 (counterexample). With a waiting job for the same
(subject, type) already stored, the video-generation enqueue route rejects —
but through the schema-validation error of its own `job.save()` (type
`'video_generation'` is not in the Job schema enum), not through any
duplicate check: the rejection carries no existing-job id, refuting the
claim for "every enqueue request of any job type". -/
theorem videoGenerate_never_enqueues :
    findNonTerminal [⟨"j1", "p", "video_generation", .waiting⟩] "p" "video_generation" =
      some ⟨"j1", "p", "video_generation", .waiting⟩ ∧
    videoGenerateEnqueue [⟨"j1", "p", "video_generation", .waiting⟩] "p" "new" =
      { createdRecords := [], publishedMessages := 0,
        rejectedWithExistingId := none } ∧
    ¬ claimC3Pred := by
  refine ⟨rfl, rfl, fun h => ?_⟩
  have h2 := (h [⟨"j1", "p", "video_generation", .waiting⟩] "p" "new").2
    ⟨"j1", "p", "video_generation", .waiting⟩ rfl
  exact absurd h2 (by decide)

/-- Claim C3 (amended). The AI content-generation route deduplicates as the
claim states: an existing (subject, type) job with status waiting or active
makes it reject carrying that job's id, creating no record and publishing
nothing. The video-generation route performs no duplicate lookup; instead,
because the type string `'video_generation'` it writes is outside the Job
schema enum, its `job.save()` always rejects with a validation error before
`addVideoJob` is reached, so every request to it creates no record,
publishes no message, and carries no existing-job id. -/
theorem enqueue_dedup_characterization :
    (∀ (jobs : List StoredJob) (pid newId : String) (e : StoredJob),
      findNonTerminal jobs pid "ai_content" = some e →
      aiGenerateContentEnqueue jobs pid true newId =
        { createdRecords := [], publishedMessages := 0,
          rejectedWithExistingId := some e.id }) ∧
    jobTypeEnum.contains "video_generation" = false ∧
    (∀ (jobs : List StoredJob) (pid newId : String),
      videoGenerateEnqueue jobs pid newId =
        { createdRecords := [], publishedMessages := 0,
          rejectedWithExistingId := none }) := by
  refine ⟨?_, rfl, ?_⟩
  · intro jobs pid newId e h
    simp [aiGenerateContentEnqueue, h]
  · intro jobs pid newId
    rfl

/-- Witness for `enqueue_dedup_characterization` at a store holding one
waiting AI-content job. -/
theorem enqueue_dedup_characterization_witness :
    findNonTerminal [⟨"j1", "p", "ai_content", .waiting⟩] "p" "ai_content" =
      some ⟨"j1", "p", "ai_content", .waiting⟩ ∧
    aiGenerateContentEnqueue [⟨"j1", "p", "ai_content", .waiting⟩] "p" true "new" =
      { createdRecords := [], publishedMessages := 0,
        rejectedWithExistingId := some "j1" } :=
  ⟨rfl, enqueue_dedup_characterization.1 [⟨"j1", "p", "ai_content", .waiting⟩] "p"
    "new" ⟨"j1", "p", "ai_content", .waiting⟩ rfl⟩

/-- Claim C7 (confirmed). The candidate image list is scraped images followed
by fallback images; with an empty concatenation the run aborts with the
"no images" error before any file is created: no output video exists, and the
resulting handler failure drives the Job record to status failed. -/
theorem no_images_aborts_run (p : ProductR) (ts : List String) (d : ℚ)
    (tr : String) (hn : Bool) (so : Nat → Bool) (eo tk : Bool)
    (hai : p.hasAiContent = true) (hempty : p.images ++ p.fallbackImages = []) :
    generateVideoRun p ts d tr hn so eo tk =
      (.error "Product has no images. Cannot generate video.", []) ∧
    FileId.videoFile ∉ (generateVideoRun p ts d tr hn so eo tk).2 ∧
    "Product has " ++ "no images" ++ ". Cannot generate video." =
      "Product has no images. Cannot generate video." ∧
    ∀ j : JobRecord,
      (applyUpdate (.handlerFail "Product has no images. Cannot generate video.") j).status =
        .failed := by
  have h1 : generateVideoRun p ts d tr hn so eo tk =
      (.error "Product has no images. Cannot generate video.", []) := by
    simp [generateVideoRun, prepareScenes, hai, hempty]
  refine ⟨h1, ?_, rfl, fun j => rfl⟩
  rw [h1]
  simp

/-- Witness for `no_images_aborts_run` at a product with no images at all. -/
theorem no_images_aborts_run_witness :
    ((⟨[], [], true⟩ : ProductR).hasAiContent = true) ∧
    ((⟨[], [], true⟩ : ProductR).images ++ (⟨[], [], true⟩ : ProductR).fallbackImages = []) ∧
    generateVideoRun ⟨[], [], true⟩ [] 5 "t" false (fun _ => true) true true =
      (.error "Product has no images. Cannot generate video.", []) :=
  ⟨rfl, rfl,
   (no_images_aborts_run ⟨[], [], true⟩ [] 5 "t" false (fun _ => true) true true
     rfl rfl).1⟩

/-- On the success path, `processScenesRun` returns exactly the list of files
it wrote. -/
theorem processScenesRun_ok_eq (so : Nat → Bool) :
    ∀ (idxs : List Nat) (acc l w : List FileId),
      processScenesRun so idxs acc = (.ok l, w) → l = w := by
  intro idxs
  induction idxs with
  | nil =>
      intro acc l w h
      simp only [processScenesRun, Prod.mk.injEq, Except.ok.injEq] at h
      rw [← h.1, ← h.2]
  | cons i rest ih =>
      intro acc l w h
      by_cases hc : so i
      · rw [processScenesRun, if_pos hc] at h
        exact ih _ _ _ h
      · rw [processScenesRun, if_neg hc] at h
        simp at h

/-- Every file `processScenesRun` leaves on disk is either from the initial
accumulator or a scene frame. -/
theorem processScenesRun_frames (so : Nat → Bool) :
    ∀ (idxs : List Nat) (acc : List FileId),
      (∀ f ∈ acc, ∃ i, f = FileId.frame i) →
      ∀ f ∈ (processScenesRun so idxs acc).2, ∃ i, f = FileId.frame i := by
  intro idxs
  induction idxs with
  | nil =>
      intro acc hacc f hf
      exact hacc f (by simpa [processScenesRun] using hf)
  | cons i rest ih =>
      intro acc hacc f hf
      by_cases hc : so i
      · rw [processScenesRun, if_pos hc] at hf
        refine ih _ ?_ f hf
        intro g hg
        rcases List.mem_append.mp hg with hg | hg
        · exact hacc g hg
        · exact ⟨i, by simpa using hg⟩
      · rw [processScenesRun, if_neg hc] at hf
        exact hacc f hf

/-- When the encode succeeds on frame paths plus the optional narration file,
the cleanup of the `'end'` handler leaves exactly the output video. -/
theorem createVideoRun_ok_files (paths : List FileId) (hnr eo : Bool)
    (v : FileId) (fs1 : List FileId)
    (hframes : ∀ f ∈ paths, ∃ i, f = FileId.frame i)
    (h : createVideoRun paths hnr eo
        (paths ++ (if hnr then [FileId.narrationFile] else [])) = (.ok v, fs1)) :
    v = FileId.videoFile ∧ fs1 = [FileId.videoFile] := by
  by_cases h0 : paths.length = 0
  · rw [createVideoRun, if_pos h0] at h
    simp at h
  · rw [createVideoRun, if_neg h0] at h
    cases eo with
    | false => simp at h
    | true =>
        simp only [if_true, Prod.mk.injEq, Except.ok.injEq] at h
        obtain ⟨hv, hfs⟩ := h
        refine ⟨hv.symm, ?_⟩
        rw [← hfs]
        have hvidmem : FileId.videoFile ∉ paths := by
          intro hmem
          rcases hframes _ hmem with ⟨i, hi⟩
          cases hi
        rw [List.filter_append, List.filter_append, List.filter_append]
        rw [List.filter_eq_nil_iff.mpr (fun f hf => by simp [hf])]
        cases hnr with
        | false => simp [hvidmem]
        | true => simp [hvidmem]

/-- Claim C9 (counterexample). A run whose encode step fails leaves its
intermediate files on disk: with one image, no key points and display time
5s, an encoder failure leaves both scene frames and the ffmpeg input list,
refuting the claim that every run, successful or failed, deletes them. -/
theorem encode_failure_leaves_temp_files :
    (generateVideoRun ⟨["img"], [], true⟩ [] 5 "t" false (fun _ => true) false true).2 =
      [.frame 0, .frame 1, .inputList] ∧
    ¬ claimC9Pred := by
  have heval : (generateVideoRun ⟨["img"], [], true⟩ [] 5 "t" false
      (fun _ => true) false true).2 = [.frame 0, .frame 1, .inputList] := by
    have h : prepareScenes ["img"] [] [] 5 "t" =
        .ok [⟨"img", "", 5, "t"⟩, ⟨"img", "", 5, "t"⟩] := by
      simp only [prepareScenes]
      norm_num
      decide
    simp only [generateVideoRun, h]
    simp [processScenesRun, createVideoRun]
  refine ⟨heval, fun h => ?_⟩
  have hcl := h ⟨["img"], [], true⟩ [] 5 "t" false (fun _ => true) false true
    FileId.inputList (by rw [heval]; simp)
  simp [tempFile] at hcl

/-- Claim C9 (amended). After a composition run that succeeds, every
intermediate file — scene frames, the ffmpeg input list, the narration
audio — has been deleted: the files remaining are exactly the output video
and the thumbnail. (A failed run can leave intermediates behind, as the
`'error'` handler performs no cleanup.) -/
theorem cleanup_on_success (p : ProductR) (ts : List String) (d : ℚ)
    (tr : String) (hn : Bool) (so : Nat → Bool) (eo tk : Bool) (v : FileId)
    (h : (generateVideoRun p ts d tr hn so eo tk).1 = .ok v) :
    (generateVideoRun p ts d tr hn so eo tk).2 =
      [FileId.videoFile, FileId.thumbFile] ∧
    ∀ f ∈ (generateVideoRun p ts d tr hn so eo tk).2, tempFile f = false := by
  cases hai : p.hasAiContent with
  | false =>
      exfalso
      simp [generateVideoRun, hai] at h
  | true =>
      rcases hps : prepareScenes p.images p.fallbackImages ts d tr with e | scenes
      · exfalso
        simp [generateVideoRun, hai, hps] at h
      · rcases hpr : processScenesRun so (List.range scenes.length) [] with ⟨r, w⟩
        cases r with
        | error e =>
            exfalso
            simp [generateVideoRun, hai, hps, hpr] at h
        | ok paths =>
            have hpw : paths = w := processScenesRun_ok_eq so _ _ _ _ hpr
            subst hpw
            have hframes : ∀ f ∈ paths, ∃ i, f = FileId.frame i := by
              intro f hf
              have hall := processScenesRun_frames so (List.range scenes.length) []
                (by simp) f
              rw [hpr] at hall
              exact hall hf
            rcases hcv : createVideoRun paths hn eo
                (paths ++ (if hn then [FileId.narrationFile] else [])) with ⟨rc, fs1⟩
            cases rc with
            | error e =>
                exfalso
                simp [generateVideoRun, hai, hps, hpr, hcv] at h
            | ok v2 =>
                have hok := createVideoRun_ok_files paths hn eo v2 fs1 hframes hcv
                cases tk with
                | false =>
                    exfalso
                    simp [generateVideoRun, hai, hps, hpr, hcv] at h
                | true =>
                    have h2 : (generateVideoRun p ts d tr hn so eo true).2 =
                        fs1 ++ [FileId.thumbFile] := by
                      simp [generateVideoRun, hai, hps, hpr, hcv]
                    rw [h2, hok.2]
                    refine ⟨rfl, ?_⟩
                    intro f hf
                    rcases List.mem_append.mp hf with hf | hf <;>
                      simp_all [tempFile]

/-- Witness for `cleanup_on_success`: a concrete fully successful run leaves
exactly the output video and the thumbnail. -/
theorem cleanup_on_success_witness :
    ((generateVideoRun ⟨["img"], [], true⟩ [] 5 "t" false (fun _ => true) true true).1 =
      .ok FileId.videoFile) ∧
    (generateVideoRun ⟨["img"], [], true⟩ [] 5 "t" false (fun _ => true) true true).2 =
      [FileId.videoFile, FileId.thumbFile] := by
  have h : prepareScenes ["img"] [] [] 5 "t" =
      .ok [⟨"img", "", 5, "t"⟩, ⟨"img", "", 5, "t"⟩] := by
    simp only [prepareScenes]
    norm_num
    decide
  have h1 : (generateVideoRun ⟨["img"], [], true⟩ [] 5 "t" false
      (fun _ => true) true true).1 = .ok FileId.videoFile := by
    simp only [generateVideoRun, h]
    simp [processScenesRun, createVideoRun]
  exact ⟨h1, (cleanup_on_success ⟨["img"], [], true⟩ [] 5 "t" false
    (fun _ => true) true true FileId.videoFile h1).1⟩

end ShpVid
